import Mathlib

/-!
Verification model of the asynchronous operation dispatcher of the
`ldk-server-gui` crate (files `src/task.rs`, `src/state.rs`, `src/app.rs`).

The dispatcher spawns fallible asynchronous remote calls and returns pollable
handles; an operation registry (`AsyncTasks`) keeps at most one outstanding
handle per operation key and drains completed handles once per redraw tick.
All definitions below are shallow embeddings of the corresponding Rust items;
state mutation is modelled by explicit state passing, and the spawning of an
asynchronous call is recorded as an element of an explicit call trace.
-/

set_option maxHeartbeats 1000000

/-- Rust `Result<T, String>`: the outcome of one asynchronous operation
(`task.rs`: every spawned future yields `Result<T, String>`). -/
inductive RustResult (T : Type) : Type
  | ok (v : T) : RustResult T
  | err (e : String) : RustResult T
  deriving DecidableEq, Repr

/-! ## Task handles (`task.rs`)

The native handle (`ChannelTaskHandle`, not `wasm32`) wraps the receiving end
of a `std::sync::mpsc` channel; its state is the queue of messages sent but
not yet received.  The spawned worker-pool task sends the outcome exactly once
(`task.rs` lines 35–38).  `try_take` performs a non-blocking `try_recv`.

The WASM handle (`ChannelTaskHandle`, `wasm32`) wraps an
`Rc<RefCell<Option<Result<T, String>>>>` cell; the cooperative task stores the
outcome into it exactly once (`task.rs` lines 66–69).  `try_take` performs
`borrow_mut().take()`. -/

/-- State of the native handle: the queue of the underlying mpsc channel. -/
structure NativeHandle (T : Type) : Type where
  rx : List (RustResult T)
  deriving DecidableEq, Repr

/-- `ChannelTaskHandle::try_take` (native): non-blocking `try_recv`; a received
message is returned as `some`, an empty (or disconnected) channel gives
`none`. -/
def NativeHandle.try_take {T : Type} : NativeHandle T → Option (RustResult T) × NativeHandle T
  | ⟨[]⟩ => (none, ⟨[]⟩)
  | ⟨r :: rest⟩ => (some r, ⟨rest⟩)

/-- The worker-pool task completing: it sends the outcome on the channel
(`tx.send(res)`), which enqueues one message. -/
def NativeHandle.complete {T : Type} (h : NativeHandle T) (r : RustResult T) : NativeHandle T :=
  ⟨h.rx ++ [r]⟩

/-- State of the WASM handle: the shared completion cell. -/
structure WasmHandle (T : Type) : Type where
  result : Option (RustResult T)
  deriving DecidableEq, Repr

/-- `ChannelTaskHandle::try_take` (wasm): `self.result.borrow_mut().take()`. -/
def WasmHandle.try_take {T : Type} (h : WasmHandle T) : Option (RustResult T) × WasmHandle T :=
  (h.result, ⟨none⟩)

/-- The cooperative task completing: `*result_clone.borrow_mut() = Some(res)`. -/
def WasmHandle.complete {T : Type} (_h : WasmHandle T) (r : RustResult T) : WasmHandle T :=
  ⟨some r⟩

/-- An observable event in the life of one handle: either the spawned
computation completes and publishes its outcome, or the owner polls the handle
with `try_take`. -/
inductive HEvent (T : Type) : Type
  | complete (r : RustResult T) : HEvent T
  | poll : HEvent T
  deriving DecidableEq, Repr

/-- Whether an event is a completion event. -/
def HEvent.isComplete {T : Type} : HEvent T → Bool
  | .complete _ => true
  | .poll => false

/-- Run the native handle through a list of events, collecting the value
returned by each `try_take` poll. -/
def runNative {T : Type} (h : NativeHandle T) : List (HEvent T) → List (Option (RustResult T))
  | [] => []
  | .complete r :: evs => runNative (h.complete r) evs
  | .poll :: evs =>
      let (o, h2) := h.try_take
      o :: runNative h2 evs

/-- Run the WASM handle through a list of events, collecting the value
returned by each `try_take` poll. -/
def runWasm {T : Type} (h : WasmHandle T) : List (HEvent T) → List (Option (RustResult T))
  | [] => []
  | .complete r :: evs => runWasm (h.complete r) evs
  | .poll :: evs =>
      let (o, h2) := h.try_take
      o :: runWasm h2 evs

/-- The life of one spawned call: `a` polls before the single completion,
then the completion publishing `r`, then `b` polls after it. -/
def oneShotTrace {T : Type} (a : Nat) (r : RustResult T) (b : Nat) : List (HEvent T) :=
  List.replicate a HEvent.poll ++ HEvent.complete r :: List.replicate b HEvent.poll

/-- The poll results the drain loop is guaranteed to observe on a one-shot
trace: `none` for every poll before completion, then — if the handle is polled
at all after completion — exactly one `some r` followed by `none` forever. -/
def oneShotOutputs {T : Type} (a : Nat) (r : RustResult T) (b : Nat) :
    List (Option (RustResult T)) :=
  List.replicate a none ++
    (match b with
     | 0 => []
     | Nat.succ b2 => some r :: List.replicate b2 none)

/-! ## External request/response payload types

The remote API client and its protobuf message types live in the external
`ldk-server-client` crate (an excluded collaborator).  Modelled from the spec:
each operation has a typed request and a typed success payload which the
dispatcher treats as opaque; only the fields this GUI actually constructs or
reads are represented, plus an opaque `blob` standing for the remaining
content of payloads the GUI stores wholesale. -/

structure PageToken where
  blob : String
  deriving DecidableEq, Repr

structure GetNodeInfoResponse where
  blob : String
  deriving DecidableEq, Repr

structure GetBalancesResponse where
  blob : String
  deriving DecidableEq, Repr

structure ListChannelsResponse where
  blob : String
  deriving DecidableEq, Repr

structure ListPaymentsResponse where
  next_page_token : Option PageToken
  blob : String
  deriving DecidableEq, Repr

structure OnchainReceiveResponse where
  address : String
  deriving DecidableEq, Repr

structure OnchainSendResponse where
  txid : String
  deriving DecidableEq, Repr

structure Bolt11ReceiveResponse where
  invoice : String
  deriving DecidableEq, Repr

structure Bolt11SendResponse where
  payment_id : String
  deriving DecidableEq, Repr

structure Bolt12ReceiveResponse where
  offer : String
  deriving DecidableEq, Repr

structure Bolt12SendResponse where
  payment_id : String
  deriving DecidableEq, Repr

structure OpenChannelResponse where
  user_channel_id : String
  deriving DecidableEq, Repr

structure CloseChannelResponse where
  blob : String
  deriving DecidableEq, Repr

structure ForceCloseChannelResponse where
  blob : String
  deriving DecidableEq, Repr

structure SpliceInResponse where
  blob : String
  deriving DecidableEq, Repr

structure SpliceOutResponse where
  address : String
  deriving DecidableEq, Repr

structure UpdateChannelConfigResponse where
  blob : String
  deriving DecidableEq, Repr

structure ConnectPeerResponse where
  blob : String
  deriving DecidableEq, Repr

/-- Rust `Bolt11InvoiceDescription` with `kind = Direct(text)`; the GUI only
ever builds the direct-description variant. -/
structure Bolt11InvoiceDescription where
  direct : String
  deriving DecidableEq, Repr

/-- `ChannelConfig` as constructed in `app.rs` (the three fields the forms
fill; the remaining fields are always `None` and are omitted). -/
structure ChannelConfig where
  forwarding_fee_proportional_millionths : Option Nat
  forwarding_fee_base_msat : Option Nat
  cltv_expiry_delta : Option Nat
  deriving DecidableEq, Repr

structure GetNodeInfoRequest where
  deriving DecidableEq, Repr

structure GetBalancesRequest where
  deriving DecidableEq, Repr

structure ListChannelsRequest where
  deriving DecidableEq, Repr

structure ListPaymentsRequest where
  page_token : Option PageToken
  deriving DecidableEq, Repr

structure OnchainReceiveRequest where
  deriving DecidableEq, Repr

structure OnchainSendRequest where
  address : String
  amount_sats : Option Nat
  send_all : Option Bool
  fee_rate_sat_per_vb : Option Nat
  deriving DecidableEq, Repr

structure Bolt11ReceiveRequest where
  amount_msat : Option Nat
  description : Option Bolt11InvoiceDescription
  expiry_secs : Nat
  deriving DecidableEq, Repr

structure Bolt11SendRequest where
  invoice : String
  amount_msat : Option Nat
  deriving DecidableEq, Repr

structure Bolt12ReceiveRequest where
  description : String
  amount_msat : Option Nat
  expiry_secs : Option Nat
  quantity : Option Nat
  deriving DecidableEq, Repr

structure Bolt12SendRequest where
  offer : String
  amount_msat : Option Nat
  quantity : Option Nat
  payer_note : Option String
  deriving DecidableEq, Repr

structure OpenChannelRequest where
  node_pubkey : String
  address : String
  channel_amount_sats : Nat
  push_to_counterparty_msat : Option Nat
  channel_config : Option ChannelConfig
  announce_channel : Bool
  deriving DecidableEq, Repr

structure CloseChannelRequest where
  user_channel_id : String
  counterparty_node_id : String
  deriving DecidableEq, Repr

structure ForceCloseChannelRequest where
  user_channel_id : String
  counterparty_node_id : String
  force_close_reason : Option String
  deriving DecidableEq, Repr

structure SpliceInRequest where
  user_channel_id : String
  counterparty_node_id : String
  splice_amount_sats : Nat
  deriving DecidableEq, Repr

structure SpliceOutRequest where
  user_channel_id : String
  counterparty_node_id : String
  address : Option String
  splice_amount_sats : Nat
  deriving DecidableEq, Repr

structure UpdateChannelConfigRequest where
  user_channel_id : String
  counterparty_node_id : String
  channel_config : Option ChannelConfig
  deriving DecidableEq, Repr

structure ConnectPeerRequest where
  node_pubkey : String
  address : String
  persist : Bool
  deriving DecidableEq, Repr

/-- Modelled from the spec: the remote-call client is a black-box capability;
the GUI holds it behind `Option<Arc<LdkServerClient>>` and only clones the
shared reference into spawned futures. -/
structure LdkServerClient where
  id : String
  deriving DecidableEq, Repr

/-- One spawned underlying asynchronous call, as observed at the dispatcher
seam: the remote operation invoked by the future passed to `spawn_task`,
together with the request it carries. -/
inductive Call : Type
  | get_node_info (req : GetNodeInfoRequest)
  | get_balances (req : GetBalancesRequest)
  | list_channels (req : ListChannelsRequest)
  | list_payments (req : ListPaymentsRequest)
  | onchain_receive (req : OnchainReceiveRequest)
  | onchain_send (req : OnchainSendRequest)
  | bolt11_receive (req : Bolt11ReceiveRequest)
  | bolt11_send (req : Bolt11SendRequest)
  | bolt12_receive (req : Bolt12ReceiveRequest)
  | bolt12_send (req : Bolt12SendRequest)
  | open_channel (req : OpenChannelRequest)
  | close_channel (req : CloseChannelRequest)
  | force_close_channel (req : ForceCloseChannelRequest)
  | splice_in (req : SpliceInRequest)
  | splice_out (req : SpliceOutRequest)
  | update_channel_config (req : UpdateChannelConfigRequest)
  | connect_peer (req : ConnectPeerRequest)
  deriving DecidableEq, Repr

/-! ## GUI state (`state.rs`) -/

inductive ConnectionStatus : Type
  | Disconnected
  | Connected
  | Error (e : String)
  deriving DecidableEq, Repr

inductive ActiveTab : Type
  | NodeInfo | Balances | Channels | Payments | Lightning | Onchain
  deriving DecidableEq, Repr

inductive LightningTab : Type
  | Bolt11Send | Bolt11Receive | Bolt12Send | Bolt12Receive
  deriving DecidableEq, Repr

inductive OnchainTab : Type
  | Send | Receive | History
  deriving DecidableEq, Repr

inductive ChainSourceType : Type
  | None | Bitcoind | Electrum | Esplora
  deriving DecidableEq, Repr

inductive ChainSourceConfig : Type
  | None
  | Bitcoind (rpc_address rpc_user rpc_password : String)
  | Electrum (server_url : String)
  | Esplora (server_url : String)
  deriving DecidableEq, Repr

structure OpenChannelForm where
  node_pubkey : String := ""
  address : String := ""
  channel_amount_sats : String := ""
  push_to_counterparty_msat : String := ""
  announce_channel : Bool := false
  forwarding_fee_proportional_millionths : String := ""
  forwarding_fee_base_msat : String := ""
  cltv_expiry_delta : String := ""
  deriving DecidableEq, Repr

structure Bolt11ReceiveForm where
  amount_msat : String := ""
  description : String := ""
  expiry_secs : String := ""
  deriving DecidableEq, Repr

structure Bolt11SendForm where
  invoice : String := ""
  amount_msat : String := ""
  deriving DecidableEq, Repr

structure Bolt12ReceiveForm where
  description : String := ""
  amount_msat : String := ""
  expiry_secs : String := ""
  quantity : String := ""
  deriving DecidableEq, Repr

structure Bolt12SendForm where
  offer : String := ""
  amount_msat : String := ""
  quantity : String := ""
  payer_note : String := ""
  deriving DecidableEq, Repr

structure OnchainSendForm where
  address : String := ""
  amount_sats : String := ""
  send_all : Bool := false
  fee_rate_sat_per_vb : String := ""
  deriving DecidableEq, Repr

structure SpliceForm where
  user_channel_id : String := ""
  counterparty_node_id : String := ""
  splice_amount_sats : String := ""
  address : String := ""
  deriving DecidableEq, Repr

structure UpdateChannelConfigForm where
  user_channel_id : String := ""
  counterparty_node_id : String := ""
  forwarding_fee_proportional_millionths : String := ""
  forwarding_fee_base_msat : String := ""
  cltv_expiry_delta : String := ""
  deriving DecidableEq, Repr

structure CloseChannelForm where
  user_channel_id : String := ""
  counterparty_node_id : String := ""
  force_close_reason : String := ""
  deriving DecidableEq, Repr

structure ConnectPeerForm where
  node_pubkey : String := ""
  address : String := ""
  persist : Bool := false
  deriving DecidableEq, Repr

structure ChainSourceForm where
  source_type : ChainSourceType := ChainSourceType.None
  btc_rpc_address : String := ""
  btc_rpc_user : String := ""
  btc_rpc_password : String := ""
  server_url : String := ""
  deriving DecidableEq, Repr

structure Forms where
  open_channel : OpenChannelForm := {}
  bolt11_receive : Bolt11ReceiveForm := {}
  bolt11_send : Bolt11SendForm := {}
  bolt12_receive : Bolt12ReceiveForm := {}
  bolt12_send : Bolt12SendForm := {}
  onchain_send : OnchainSendForm := {}
  splice_in : SpliceForm := {}
  splice_out : SpliceForm := {}
  update_channel_config : UpdateChannelConfigForm := {}
  close_channel : CloseChannelForm := {}
  connect_peer : ConnectPeerForm := {}
  chain_source : ChainSourceForm := {}
  deriving DecidableEq, Repr

/-- `StatusMessage`: the shared "last status" surface.  The Rust struct also
carries a dead-code timestamp (`Instant::now()`, never read anywhere); real
time is outside the model and the field is omitted. -/
structure StatusMessage where
  text : String
  is_error : Bool
  deriving DecidableEq, Repr

/-- `StatusMessage::success` (timestamp omitted, see `StatusMessage`). -/
def StatusMessage.success (text : String) : StatusMessage :=
  { text := text, is_error := false }

/-- `StatusMessage::error` (timestamp omitted, see `StatusMessage`). -/
def StatusMessage.error (text : String) : StatusMessage :=
  { text := text, is_error := true }

/-- The registry handle type the application state stores.  Both Rust
implementations are named `ChannelTaskHandle`; the two are observationally
equivalent as pollable handles (theorem `claim8_handle_substrate_equiv`), so
the registry model uses the completion-cell representation. -/
abbrev ChannelTaskHandle (T : Type) : Type := WasmHandle T

/-- A freshly spawned handle: the outcome has not been published yet. -/
def ChannelTaskHandle.fresh {T : Type} : ChannelTaskHandle T := ⟨none⟩

/-- `AsyncTasks`: one registry slot (`Option<ChannelTaskHandle<_>>`) per
operation key. -/
structure AsyncTasks where
  node_info : Option (ChannelTaskHandle GetNodeInfoResponse) := none
  balances : Option (ChannelTaskHandle GetBalancesResponse) := none
  channels : Option (ChannelTaskHandle ListChannelsResponse) := none
  payments : Option (ChannelTaskHandle ListPaymentsResponse) := none
  onchain_receive : Option (ChannelTaskHandle OnchainReceiveResponse) := none
  onchain_send : Option (ChannelTaskHandle OnchainSendResponse) := none
  bolt11_receive : Option (ChannelTaskHandle Bolt11ReceiveResponse) := none
  bolt11_send : Option (ChannelTaskHandle Bolt11SendResponse) := none
  bolt12_receive : Option (ChannelTaskHandle Bolt12ReceiveResponse) := none
  bolt12_send : Option (ChannelTaskHandle Bolt12SendResponse) := none
  open_channel : Option (ChannelTaskHandle OpenChannelResponse) := none
  close_channel : Option (ChannelTaskHandle CloseChannelResponse) := none
  force_close_channel : Option (ChannelTaskHandle ForceCloseChannelResponse) := none
  splice_in : Option (ChannelTaskHandle SpliceInResponse) := none
  splice_out : Option (ChannelTaskHandle SpliceOutResponse) := none
  update_channel_config : Option (ChannelTaskHandle UpdateChannelConfigResponse) := none
  connect_peer : Option (ChannelTaskHandle ConnectPeerResponse) := none
  deriving DecidableEq, Repr

/-- `AsyncTasks::any_pending`, verbatim: the seventeen-fold disjunction. -/
def AsyncTasks.any_pending (t : AsyncTasks) : Bool :=
  t.node_info.isSome
    || t.balances.isSome
    || t.channels.isSome
    || t.payments.isSome
    || t.onchain_receive.isSome
    || t.onchain_send.isSome
    || t.bolt11_receive.isSome
    || t.bolt11_send.isSome
    || t.bolt12_receive.isSome
    || t.bolt12_send.isSome
    || t.open_channel.isSome
    || t.close_channel.isSome
    || t.force_close_channel.isSome
    || t.splice_in.isSome
    || t.splice_out.isSome
    || t.update_channel_config.isSome
    || t.connect_peer.isSome

/-- `AppState` (`state.rs`); the `Arc` around the client is erased (the model
never shares mutable state). -/
structure AppState where
  server_url : String := "localhost:3002"
  api_key : String := ""
  tls_cert_path : String := ""
  connection_status : ConnectionStatus := ConnectionStatus.Disconnected
  client : Option LdkServerClient := none
  config_file_path : Option String := none
  network : String := ""
  chain_source : ChainSourceConfig := ChainSourceConfig.None
  active_tab : ActiveTab := ActiveTab.NodeInfo
  node_info : Option GetNodeInfoResponse := none
  balances : Option GetBalancesResponse := none
  channels : Option ListChannelsResponse := none
  payments : Option ListPaymentsResponse := none
  payments_page_token : Option PageToken := none
  onchain_address : Option String := none
  generated_invoice : Option String := none
  generated_offer : Option String := none
  last_payment_id : Option String := none
  last_txid : Option String := none
  last_channel_id : Option String := none
  tasks : AsyncTasks := {}
  forms : Forms := {}
  status_message : Option StatusMessage := none
  show_open_channel_dialog : Bool := false
  show_close_channel_dialog : Bool := false
  show_splice_in_dialog : Bool := false
  show_splice_out_dialog : Bool := false
  show_update_config_dialog : Bool := false
  show_connect_peer_dialog : Bool := false
  show_load_config_dialog : Bool := false
  config_paste_text : String := ""
  lightning_tab : LightningTab := LightningTab.Bolt11Send
  onchain_tab : OnchainTab := OnchainTab.Send
  deriving DecidableEq, Repr

/-! ## Operation keys and registry slots -/

/-- The closed set of operation keys: one per field of `AsyncTasks`. -/
inductive Key : Type
  | node_info | balances | channels | payments
  | onchain_receive | onchain_send
  | bolt11_receive | bolt11_send | bolt12_receive | bolt12_send
  | open_channel | close_channel | force_close_channel
  | splice_in | splice_out | update_channel_config | connect_peer
  deriving DecidableEq, Repr

/-- The seventeen keys, in the order their slots are declared in `AsyncTasks`
and polled by `poll_tasks`. -/
def Key.all : List Key :=
  [.node_info, .balances, .channels, .payments, .onchain_receive, .onchain_send,
   .bolt11_receive, .bolt11_send, .bolt12_receive, .bolt12_send, .open_channel,
   .close_channel, .force_close_channel, .splice_in, .splice_out,
   .update_channel_config, .connect_peer]

/-- Whether the registry slot of a key is occupied (`is_some` on the
corresponding `AsyncTasks` field). -/
def AsyncTasks.slotSome (t : AsyncTasks) : Key → Bool
  | .node_info => t.node_info.isSome
  | .balances => t.balances.isSome
  | .channels => t.channels.isSome
  | .payments => t.payments.isSome
  | .onchain_receive => t.onchain_receive.isSome
  | .onchain_send => t.onchain_send.isSome
  | .bolt11_receive => t.bolt11_receive.isSome
  | .bolt11_send => t.bolt11_send.isSome
  | .bolt12_receive => t.bolt12_receive.isSome
  | .bolt12_send => t.bolt12_send.isSome
  | .open_channel => t.open_channel.isSome
  | .close_channel => t.close_channel.isSome
  | .force_close_channel => t.force_close_channel.isSome
  | .splice_in => t.splice_in.isSome
  | .splice_out => t.splice_out.isSome
  | .update_channel_config => t.update_channel_config.isSome
  | .connect_peer => t.connect_peer.isSome

/-- A key's slot is occupied in an application state. -/
def occupied (s : AppState) (k : Key) : Bool :=
  s.tasks.slotSome k

/-- The slot of key `k` holds a handle whose call has completed with the
error message `m` (payload-type independent). -/
def slotErr (s : AppState) (k : Key) (m : String) : Prop :=
  match k with
  | .node_info => s.tasks.node_info = some ⟨some (.err m)⟩
  | .balances => s.tasks.balances = some ⟨some (.err m)⟩
  | .channels => s.tasks.channels = some ⟨some (.err m)⟩
  | .payments => s.tasks.payments = some ⟨some (.err m)⟩
  | .onchain_receive => s.tasks.onchain_receive = some ⟨some (.err m)⟩
  | .onchain_send => s.tasks.onchain_send = some ⟨some (.err m)⟩
  | .bolt11_receive => s.tasks.bolt11_receive = some ⟨some (.err m)⟩
  | .bolt11_send => s.tasks.bolt11_send = some ⟨some (.err m)⟩
  | .bolt12_receive => s.tasks.bolt12_receive = some ⟨some (.err m)⟩
  | .bolt12_send => s.tasks.bolt12_send = some ⟨some (.err m)⟩
  | .open_channel => s.tasks.open_channel = some ⟨some (.err m)⟩
  | .close_channel => s.tasks.close_channel = some ⟨some (.err m)⟩
  | .force_close_channel => s.tasks.force_close_channel = some ⟨some (.err m)⟩
  | .splice_in => s.tasks.splice_in = some ⟨some (.err m)⟩
  | .splice_out => s.tasks.splice_out = some ⟨some (.err m)⟩
  | .update_channel_config => s.tasks.update_channel_config = some ⟨some (.err m)⟩
  | .connect_peer => s.tasks.connect_peer = some ⟨some (.err m)⟩

/-- The slot of key `k` holds a handle whose call has completed (with either
outcome). -/
def slotDone (s : AppState) (k : Key) : Prop :=
  match k with
  | .node_info => ∃ r, s.tasks.node_info = some ⟨some r⟩
  | .balances => ∃ r, s.tasks.balances = some ⟨some r⟩
  | .channels => ∃ r, s.tasks.channels = some ⟨some r⟩
  | .payments => ∃ r, s.tasks.payments = some ⟨some r⟩
  | .onchain_receive => ∃ r, s.tasks.onchain_receive = some ⟨some r⟩
  | .onchain_send => ∃ r, s.tasks.onchain_send = some ⟨some r⟩
  | .bolt11_receive => ∃ r, s.tasks.bolt11_receive = some ⟨some r⟩
  | .bolt11_send => ∃ r, s.tasks.bolt11_send = some ⟨some r⟩
  | .bolt12_receive => ∃ r, s.tasks.bolt12_receive = some ⟨some r⟩
  | .bolt12_send => ∃ r, s.tasks.bolt12_send = some ⟨some r⟩
  | .open_channel => ∃ r, s.tasks.open_channel = some ⟨some r⟩
  | .close_channel => ∃ r, s.tasks.close_channel = some ⟨some r⟩
  | .force_close_channel => ∃ r, s.tasks.force_close_channel = some ⟨some r⟩
  | .splice_in => ∃ r, s.tasks.splice_in = some ⟨some r⟩
  | .splice_out => ∃ r, s.tasks.splice_out = some ⟨some r⟩
  | .update_channel_config => ∃ r, s.tasks.update_channel_config = some ⟨some r⟩
  | .connect_peer => ∃ r, s.tasks.connect_peer = some ⟨some r⟩

/-- Clear the slot of key `k` (set the `AsyncTasks` field to `None`). -/
def clearSlot (s : AppState) (k : Key) : AppState :=
  match k with
  | .node_info => { s with tasks := { s.tasks with node_info := none } }
  | .balances => { s with tasks := { s.tasks with balances := none } }
  | .channels => { s with tasks := { s.tasks with channels := none } }
  | .payments => { s with tasks := { s.tasks with payments := none } }
  | .onchain_receive => { s with tasks := { s.tasks with onchain_receive := none } }
  | .onchain_send => { s with tasks := { s.tasks with onchain_send := none } }
  | .bolt11_receive => { s with tasks := { s.tasks with bolt11_receive := none } }
  | .bolt11_send => { s with tasks := { s.tasks with bolt11_send := none } }
  | .bolt12_receive => { s with tasks := { s.tasks with bolt12_receive := none } }
  | .bolt12_send => { s with tasks := { s.tasks with bolt12_send := none } }
  | .open_channel => { s with tasks := { s.tasks with open_channel := none } }
  | .close_channel => { s with tasks := { s.tasks with close_channel := none } }
  | .force_close_channel => { s with tasks := { s.tasks with force_close_channel := none } }
  | .splice_in => { s with tasks := { s.tasks with splice_in := none } }
  | .splice_out => { s with tasks := { s.tasks with splice_out := none } }
  | .update_channel_config => { s with tasks := { s.tasks with update_channel_config := none } }
  | .connect_peer => { s with tasks := { s.tasks with connect_peer := none } }

/-- Two states hold the same handle (or both none) in the slot of key `k`. -/
def slotEq (s1 s2 : AppState) (k : Key) : Prop :=
  match k with
  | .node_info => s1.tasks.node_info = s2.tasks.node_info
  | .balances => s1.tasks.balances = s2.tasks.balances
  | .channels => s1.tasks.channels = s2.tasks.channels
  | .payments => s1.tasks.payments = s2.tasks.payments
  | .onchain_receive => s1.tasks.onchain_receive = s2.tasks.onchain_receive
  | .onchain_send => s1.tasks.onchain_send = s2.tasks.onchain_send
  | .bolt11_receive => s1.tasks.bolt11_receive = s2.tasks.bolt11_receive
  | .bolt11_send => s1.tasks.bolt11_send = s2.tasks.bolt11_send
  | .bolt12_receive => s1.tasks.bolt12_receive = s2.tasks.bolt12_receive
  | .bolt12_send => s1.tasks.bolt12_send = s2.tasks.bolt12_send
  | .open_channel => s1.tasks.open_channel = s2.tasks.open_channel
  | .close_channel => s1.tasks.close_channel = s2.tasks.close_channel
  | .force_close_channel => s1.tasks.force_close_channel = s2.tasks.force_close_channel
  | .splice_in => s1.tasks.splice_in = s2.tasks.splice_in
  | .splice_out => s1.tasks.splice_out = s2.tasks.splice_out
  | .update_channel_config => s1.tasks.update_channel_config = s2.tasks.update_channel_config
  | .connect_peer => s1.tasks.connect_peer = s2.tasks.connect_peer

/-! ## Parsing helpers

Rust `str::parse::<uN>()` on already-trimmed form fields, modelled for digit
strings: the result is `some n` when the string is a non-empty digit sequence
whose value fits in N bits (a leading plus sign, accepted by Rust, is
elided). -/

/-- A decimal digit's value. -/
def charDigit? (c : Char) : Option Nat :=
  if c0 ≤ c ∧ c ≤ c9 then some (c.toNat - c0.toNat) else none
where
  c0 : Char := '0'
  c9 : Char := '9'

/-- Executable model of `str::parse` digit scanning: `some n` iff the string
is a non-empty sequence of decimal digits of value `n`. -/
def String.strToNat? (s : String) : Option Nat :=
  if s.data.isEmpty then none
  else
    s.data.foldl (fun acc c => acc.bind fun n => (charDigit? c).map fun d => 10 * n + d)
      (some 0)

/-- Executable model of `str::trim`: strip leading and trailing whitespace. -/
def String.strTrim (s : String) : String :=
  ⟨((s.data.dropWhile Char.isWhitespace).reverse.dropWhile Char.isWhitespace).reverse⟩

def parseU64 (s : String) : Option Nat :=
  match s.strToNat? with
  | some n => if n < 2 ^ 64 then some n else none
  | none => none

def parseU32 (s : String) : Option Nat :=
  match s.strToNat? with
  | some n => if n < 2 ^ 32 then some n else none
  | none => none

/-! ## Trigger functions (`app.rs`)

Every trigger method has the same shape: a single-flight guard on the key's
slot (`if self.state.tasks.X.is_some() return`), an `if let Some(client)`
gate, form validation with early error-return, and finally `spawn_task`
storing a fresh handle in the slot.  `runTrigger` captures that shape once;
the per-key tables below record, straight from each method's body, the slot
accessed (`slotGet`/`slotSet`), the validation checks in source order
(`validateOf`), and the request the spawned future carries (`mkCallOf`). -/

/-- The success-payload type of each operation key. -/
def RespType : Key → Type
  | .node_info => GetNodeInfoResponse
  | .balances => GetBalancesResponse
  | .channels => ListChannelsResponse
  | .payments => ListPaymentsResponse
  | .onchain_receive => OnchainReceiveResponse
  | .onchain_send => OnchainSendResponse
  | .bolt11_receive => Bolt11ReceiveResponse
  | .bolt11_send => Bolt11SendResponse
  | .bolt12_receive => Bolt12ReceiveResponse
  | .bolt12_send => Bolt12SendResponse
  | .open_channel => OpenChannelResponse
  | .close_channel => CloseChannelResponse
  | .force_close_channel => ForceCloseChannelResponse
  | .splice_in => SpliceInResponse
  | .splice_out => SpliceOutResponse
  | .update_channel_config => UpdateChannelConfigResponse
  | .connect_peer => ConnectPeerResponse

/-- Read the registry slot of a key. -/
def slotGet : (k : Key) → AppState → Option (ChannelTaskHandle (RespType k))
  | .node_info => fun s => s.tasks.node_info
  | .balances => fun s => s.tasks.balances
  | .channels => fun s => s.tasks.channels
  | .payments => fun s => s.tasks.payments
  | .onchain_receive => fun s => s.tasks.onchain_receive
  | .onchain_send => fun s => s.tasks.onchain_send
  | .bolt11_receive => fun s => s.tasks.bolt11_receive
  | .bolt11_send => fun s => s.tasks.bolt11_send
  | .bolt12_receive => fun s => s.tasks.bolt12_receive
  | .bolt12_send => fun s => s.tasks.bolt12_send
  | .open_channel => fun s => s.tasks.open_channel
  | .close_channel => fun s => s.tasks.close_channel
  | .force_close_channel => fun s => s.tasks.force_close_channel
  | .splice_in => fun s => s.tasks.splice_in
  | .splice_out => fun s => s.tasks.splice_out
  | .update_channel_config => fun s => s.tasks.update_channel_config
  | .connect_peer => fun s => s.tasks.connect_peer

/-- Write the registry slot of a key. -/
def slotSet : (k : Key) → AppState → Option (ChannelTaskHandle (RespType k)) → AppState
  | .node_info => fun s v => { s with tasks := { s.tasks with node_info := v } }
  | .balances => fun s v => { s with tasks := { s.tasks with balances := v } }
  | .channels => fun s v => { s with tasks := { s.tasks with channels := v } }
  | .payments => fun s v => { s with tasks := { s.tasks with payments := v } }
  | .onchain_receive => fun s v => { s with tasks := { s.tasks with onchain_receive := v } }
  | .onchain_send => fun s v => { s with tasks := { s.tasks with onchain_send := v } }
  | .bolt11_receive => fun s v => { s with tasks := { s.tasks with bolt11_receive := v } }
  | .bolt11_send => fun s v => { s with tasks := { s.tasks with bolt11_send := v } }
  | .bolt12_receive => fun s v => { s with tasks := { s.tasks with bolt12_receive := v } }
  | .bolt12_send => fun s v => { s with tasks := { s.tasks with bolt12_send := v } }
  | .open_channel => fun s v => { s with tasks := { s.tasks with open_channel := v } }
  | .close_channel => fun s v => { s with tasks := { s.tasks with close_channel := v } }
  | .force_close_channel => fun s v => { s with tasks := { s.tasks with force_close_channel := v } }
  | .splice_in => fun s v => { s with tasks := { s.tasks with splice_in := v } }
  | .splice_out => fun s v => { s with tasks := { s.tasks with splice_out := v } }
  | .update_channel_config =>
      fun s v => { s with tasks := { s.tasks with update_channel_config := v } }
  | .connect_peer => fun s v => { s with tasks := { s.tasks with connect_peer := v } }

/-- The form-validation early returns of each trigger method, in source
order; `some msg` is the status text of the first failing check, `none` means
the method proceeds to spawn.  The parameterless fetch/generate triggers
validate nothing. -/
def validateOf : Key → AppState → Option String
  | .node_info => fun _ => none
  | .balances => fun _ => none
  | .channels => fun _ => none
  | .payments => fun _ => none
  | .onchain_receive => fun _ => none
  | .onchain_send => fun s =>
      if s.forms.onchain_send.address.strTrim = "" then some "Address is required" else none
  | .bolt11_receive => fun _ => none
  | .bolt11_send => fun s =>
      if s.forms.bolt11_send.invoice.strTrim = "" then some "Invoice is required" else none
  | .bolt12_receive => fun s =>
      if s.forms.bolt12_receive.description.strTrim = "" then some "Description is required"
      else none
  | .bolt12_send => fun s =>
      if s.forms.bolt12_send.offer.strTrim = "" then some "Offer is required" else none
  | .open_channel => fun s =>
      match parseU64 s.forms.open_channel.channel_amount_sats.strTrim with
      | none => some "Invalid channel amount"
      | some _ =>
          if s.forms.open_channel.node_pubkey.strTrim = "" ∨ s.forms.open_channel.address.strTrim = ""
          then some "Node pubkey and address are required"
          else none
  | .close_channel => fun s =>
      if s.forms.close_channel.user_channel_id.strTrim = ""
          ∨ s.forms.close_channel.counterparty_node_id.strTrim = ""
      then some "Channel ID and counterparty node ID are required"
      else none
  | .force_close_channel => fun s =>
      if s.forms.close_channel.user_channel_id.strTrim = ""
          ∨ s.forms.close_channel.counterparty_node_id.strTrim = ""
      then some "Channel ID and counterparty node ID are required"
      else none
  | .splice_in => fun s =>
      match parseU64 s.forms.splice_in.splice_amount_sats.strTrim with
      | none => some "Invalid splice amount"
      | some _ =>
          if s.forms.splice_in.user_channel_id.strTrim = ""
              ∨ s.forms.splice_in.counterparty_node_id.strTrim = ""
          then some "Channel ID and counterparty node ID are required"
          else none
  | .splice_out => fun s =>
      match parseU64 s.forms.splice_out.splice_amount_sats.strTrim with
      | none => some "Invalid splice amount"
      | some _ =>
          if s.forms.splice_out.user_channel_id.strTrim = ""
              ∨ s.forms.splice_out.counterparty_node_id.strTrim = ""
          then some "Channel ID and counterparty node ID are required"
          else none
  | .update_channel_config => fun s =>
      if s.forms.update_channel_config.user_channel_id.strTrim = ""
          ∨ s.forms.update_channel_config.counterparty_node_id.strTrim = ""
      then some "Channel ID and counterparty node ID are required"
      else none
  | .connect_peer => fun s =>
      if s.forms.connect_peer.node_pubkey.strTrim = "" ∨ s.forms.connect_peer.address.strTrim = ""
      then some "Node pubkey and address are required"
      else none

/-- `build_channel_config` (`app.rs`, free function). -/
def build_channel_config (fee_prop fee_base cltv : String) : Option ChannelConfig :=
  let fee_prop := parseU32 fee_prop
  let fee_base := parseU32 fee_base
  let cltv := parseU32 cltv
  if fee_prop = none ∧ fee_base = none ∧ cltv = none then none
  else
    some { forwarding_fee_proportional_millionths := fee_prop,
           forwarding_fee_base_msat := fee_base,
           cltv_expiry_delta := cltv }

/-- The remote call each trigger's spawned future performs, with the request
built from the form exactly as in the method body. -/
def mkCallOf : Key → AppState → Call
  | .node_info => fun _ => Call.get_node_info {}
  | .balances => fun _ => Call.get_balances {}
  | .channels => fun _ => Call.list_channels {}
  | .payments => fun s => Call.list_payments { page_token := s.payments_page_token }
  | .onchain_receive => fun _ => Call.onchain_receive {}
  | .onchain_send => fun s =>
      Call.onchain_send
        { address := s.forms.onchain_send.address.strTrim,
          amount_sats := parseU64 s.forms.onchain_send.amount_sats.strTrim,
          send_all := if s.forms.onchain_send.send_all then some true else none,
          fee_rate_sat_per_vb := parseU64 s.forms.onchain_send.fee_rate_sat_per_vb.strTrim }
  | .bolt11_receive => fun s =>
      Call.bolt11_receive
        { amount_msat := parseU64 s.forms.bolt11_receive.amount_msat.strTrim,
          description :=
            if s.forms.bolt11_receive.description.strTrim ≠ "" then
              some ⟨s.forms.bolt11_receive.description.strTrim⟩
            else none,
          expiry_secs := (parseU32 s.forms.bolt11_receive.expiry_secs.strTrim).getD 86400 }
  | .bolt11_send => fun s =>
      Call.bolt11_send
        { invoice := s.forms.bolt11_send.invoice.strTrim,
          amount_msat := parseU64 s.forms.bolt11_send.amount_msat.strTrim }
  | .bolt12_receive => fun s =>
      Call.bolt12_receive
        { description := s.forms.bolt12_receive.description.strTrim,
          amount_msat := parseU64 s.forms.bolt12_receive.amount_msat.strTrim,
          expiry_secs := parseU32 s.forms.bolt12_receive.expiry_secs.strTrim,
          quantity := parseU64 s.forms.bolt12_receive.quantity.strTrim }
  | .bolt12_send => fun s =>
      Call.bolt12_send
        { offer := s.forms.bolt12_send.offer.strTrim,
          amount_msat := parseU64 s.forms.bolt12_send.amount_msat.strTrim,
          quantity := parseU64 s.forms.bolt12_send.quantity.strTrim,
          payer_note :=
            if s.forms.bolt12_send.payer_note.strTrim = "" then none
            else some s.forms.bolt12_send.payer_note.strTrim }
  | .open_channel => fun s =>
      Call.open_channel
        { node_pubkey := s.forms.open_channel.node_pubkey.strTrim,
          address := s.forms.open_channel.address.strTrim,
          channel_amount_sats := (parseU64 s.forms.open_channel.channel_amount_sats.strTrim).getD 0,
          push_to_counterparty_msat :=
            parseU64 s.forms.open_channel.push_to_counterparty_msat.strTrim,
          channel_config :=
            build_channel_config
              s.forms.open_channel.forwarding_fee_proportional_millionths.strTrim
              s.forms.open_channel.forwarding_fee_base_msat.strTrim
              s.forms.open_channel.cltv_expiry_delta.strTrim,
          announce_channel := s.forms.open_channel.announce_channel }
  | .close_channel => fun s =>
      Call.close_channel
        { user_channel_id := s.forms.close_channel.user_channel_id.strTrim,
          counterparty_node_id := s.forms.close_channel.counterparty_node_id.strTrim }
  | .force_close_channel => fun s =>
      Call.force_close_channel
        { user_channel_id := s.forms.close_channel.user_channel_id.strTrim,
          counterparty_node_id := s.forms.close_channel.counterparty_node_id.strTrim,
          force_close_reason :=
            if s.forms.close_channel.force_close_reason.strTrim = "" then none
            else some s.forms.close_channel.force_close_reason.strTrim }
  | .splice_in => fun s =>
      Call.splice_in
        { user_channel_id := s.forms.splice_in.user_channel_id.strTrim,
          counterparty_node_id := s.forms.splice_in.counterparty_node_id.strTrim,
          splice_amount_sats := (parseU64 s.forms.splice_in.splice_amount_sats.strTrim).getD 0 }
  | .splice_out => fun s =>
      Call.splice_out
        { user_channel_id := s.forms.splice_out.user_channel_id.strTrim,
          counterparty_node_id := s.forms.splice_out.counterparty_node_id.strTrim,
          address :=
            if s.forms.splice_out.address.strTrim = "" then none
            else some s.forms.splice_out.address.strTrim,
          splice_amount_sats := (parseU64 s.forms.splice_out.splice_amount_sats.strTrim).getD 0 }
  | .update_channel_config => fun s =>
      Call.update_channel_config
        { user_channel_id := s.forms.update_channel_config.user_channel_id.strTrim,
          counterparty_node_id := s.forms.update_channel_config.counterparty_node_id.strTrim,
          channel_config :=
            some { forwarding_fee_proportional_millionths :=
                     parseU32
                       s.forms.update_channel_config.forwarding_fee_proportional_millionths.strTrim,
                   forwarding_fee_base_msat :=
                     parseU32 s.forms.update_channel_config.forwarding_fee_base_msat.strTrim,
                   cltv_expiry_delta :=
                     parseU32 s.forms.update_channel_config.cltv_expiry_delta.strTrim } }
  | .connect_peer => fun s =>
      Call.connect_peer
        { node_pubkey := s.forms.connect_peer.node_pubkey.strTrim,
          address := s.forms.connect_peer.address.strTrim,
          persist := s.forms.connect_peer.persist }

/-- The shared trigger shape (see the section comment). -/
def runTrigger {T : Type}
    (get : AppState → Option (ChannelTaskHandle T))
    (set : AppState → Option (ChannelTaskHandle T) → AppState)
    (validate : AppState → Option String)
    (mkCall : AppState → Call)
    (s : AppState) : AppState × List Call :=
  if (get s).isSome then (s, [])
  else
    match s.client with
    | none => (s, [])
    | some _ =>
        match validate s with
        | some msg => ({ s with status_message := some (StatusMessage.error msg) }, [])
        | none => (set s (some ChannelTaskHandle.fresh), [mkCall s])

/-- `LdkServerApp::fetch_node_info`. -/
def fetch_node_info : AppState → AppState × List Call :=
  runTrigger (slotGet .node_info) (slotSet .node_info) (validateOf .node_info) (mkCallOf .node_info)

/-- `LdkServerApp::fetch_balances`. -/
def fetch_balances : AppState → AppState × List Call :=
  runTrigger (slotGet .balances) (slotSet .balances) (validateOf .balances) (mkCallOf .balances)

/-- `LdkServerApp::fetch_channels`. -/
def fetch_channels : AppState → AppState × List Call :=
  runTrigger (slotGet .channels) (slotSet .channels) (validateOf .channels) (mkCallOf .channels)

/-- `LdkServerApp::fetch_payments`. -/
def fetch_payments : AppState → AppState × List Call :=
  runTrigger (slotGet .payments) (slotSet .payments) (validateOf .payments) (mkCallOf .payments)

/-- `LdkServerApp::generate_onchain_address`. -/
def generate_onchain_address : AppState → AppState × List Call :=
  runTrigger (slotGet .onchain_receive) (slotSet .onchain_receive) (validateOf .onchain_receive)
    (mkCallOf .onchain_receive)

/-- `LdkServerApp::send_onchain`. -/
def send_onchain : AppState → AppState × List Call :=
  runTrigger (slotGet .onchain_send) (slotSet .onchain_send) (validateOf .onchain_send)
    (mkCallOf .onchain_send)

/-- `LdkServerApp::generate_bolt11_invoice`. -/
def generate_bolt11_invoice : AppState → AppState × List Call :=
  runTrigger (slotGet .bolt11_receive) (slotSet .bolt11_receive) (validateOf .bolt11_receive)
    (mkCallOf .bolt11_receive)

/-- `LdkServerApp::send_bolt11`. -/
def send_bolt11 : AppState → AppState × List Call :=
  runTrigger (slotGet .bolt11_send) (slotSet .bolt11_send) (validateOf .bolt11_send)
    (mkCallOf .bolt11_send)

/-- `LdkServerApp::generate_bolt12_offer`. -/
def generate_bolt12_offer : AppState → AppState × List Call :=
  runTrigger (slotGet .bolt12_receive) (slotSet .bolt12_receive) (validateOf .bolt12_receive)
    (mkCallOf .bolt12_receive)

/-- `LdkServerApp::send_bolt12`. -/
def send_bolt12 : AppState → AppState × List Call :=
  runTrigger (slotGet .bolt12_send) (slotSet .bolt12_send) (validateOf .bolt12_send)
    (mkCallOf .bolt12_send)

/-- `LdkServerApp::open_channel`. -/
def open_channel : AppState → AppState × List Call :=
  runTrigger (slotGet .open_channel) (slotSet .open_channel) (validateOf .open_channel)
    (mkCallOf .open_channel)

/-- `LdkServerApp::close_channel`. -/
def close_channel : AppState → AppState × List Call :=
  runTrigger (slotGet .close_channel) (slotSet .close_channel) (validateOf .close_channel)
    (mkCallOf .close_channel)

/-- `LdkServerApp::force_close_channel`. -/
def force_close_channel : AppState → AppState × List Call :=
  runTrigger (slotGet .force_close_channel) (slotSet .force_close_channel)
    (validateOf .force_close_channel) (mkCallOf .force_close_channel)

/-- `LdkServerApp::splice_in`. -/
def splice_in : AppState → AppState × List Call :=
  runTrigger (slotGet .splice_in) (slotSet .splice_in) (validateOf .splice_in) (mkCallOf .splice_in)

/-- `LdkServerApp::splice_out`. -/
def splice_out : AppState → AppState × List Call :=
  runTrigger (slotGet .splice_out) (slotSet .splice_out) (validateOf .splice_out)
    (mkCallOf .splice_out)

/-- `LdkServerApp::update_channel_config`. -/
def update_channel_config : AppState → AppState × List Call :=
  runTrigger (slotGet .update_channel_config) (slotSet .update_channel_config)
    (validateOf .update_channel_config) (mkCallOf .update_channel_config)

/-- `LdkServerApp::connect_peer`. -/
def connect_peer : AppState → AppState × List Call :=
  runTrigger (slotGet .connect_peer) (slotSet .connect_peer) (validateOf .connect_peer)
    (mkCallOf .connect_peer)

/-- The trigger function of each operation key. -/
def trigger : Key → AppState → AppState × List Call
  | .node_info => fetch_node_info
  | .balances => fetch_balances
  | .channels => fetch_channels
  | .payments => fetch_payments
  | .onchain_receive => generate_onchain_address
  | .onchain_send => send_onchain
  | .bolt11_receive => generate_bolt11_invoice
  | .bolt11_send => send_bolt11
  | .bolt12_receive => generate_bolt12_offer
  | .bolt12_send => send_bolt12
  | .open_channel => open_channel
  | .close_channel => close_channel
  | .force_close_channel => force_close_channel
  | .splice_in => splice_in
  | .splice_out => splice_out
  | .update_channel_config => update_channel_config
  | .connect_peer => connect_peer

/-! ## Draining (`poll_tasks`, `app.rs`)

The `poll_task!` macro body, for one slot: if the slot holds a handle, call
`try_take`; on `Some(Ok(v))` clear the slot and run the per-operation success
handler; on `Some(Err(e))` clear the slot and overwrite the shared status
message with the error; on `None` leave the slot alone and request an
immediate repaint.  The third component of the accumulator records whether
`ctx.request_repaint()` was called during the pass. -/

def poll_task {T : Type}
    (get : AppState → Option (ChannelTaskHandle T))
    (set : AppState → Option (ChannelTaskHandle T) → AppState)
    (handler : AppState → T → AppState × List Call)
    (acc : AppState × List Call × Bool) : AppState × List Call × Bool :=
  match get acc.1 with
  | none => (acc.1, acc.2.1, acc.2.2)
  | some t =>
      match (WasmHandle.try_take t).1 with
      | some (RustResult.ok v) =>
          ((handler (set acc.1 none) v).1,
            acc.2.1 ++ (handler (set acc.1 none) v).2, acc.2.2)
      | some (RustResult.err e) =>
          ({ set acc.1 none with status_message := some (StatusMessage.error e) },
            acc.2.1, acc.2.2)
      | none => (acc.1, acc.2.1, true)

/-- The success handler of each key, written out from the corresponding
`poll_task!` invocation in `poll_tasks`.  Six of them end by calling the
`fetch_channels` trigger (the dependent list re-fetch). -/
def handlerOf : (k : Key) → AppState → RespType k → AppState × List Call
  | .node_info => fun s v => ({ s with node_info := some v }, [])
  | .balances => fun s v => ({ s with balances := some v }, [])
  | .channels => fun s v => ({ s with channels := some v }, [])
  | .payments => fun s v =>
      ({ s with payments_page_token := v.next_page_token, payments := some v }, [])
  | .onchain_receive => fun s v =>
      ({ s with onchain_address := some v.address,
                status_message := some (StatusMessage.success "Address generated") }, [])
  | .onchain_send => fun s v =>
      ({ s with last_txid := some v.txid,
                status_message := some (StatusMessage.success ("Sent! TXID: " ++ v.txid)),
                forms := { s.forms with onchain_send := {} } }, [])
  | .bolt11_receive => fun s v =>
      ({ s with generated_invoice := some v.invoice,
                status_message := some (StatusMessage.success "Invoice generated") }, [])
  | .bolt11_send => fun s v =>
      ({ s with last_payment_id := some v.payment_id,
                status_message :=
                  some (StatusMessage.success ("Payment sent! ID: " ++ v.payment_id)),
                forms := { s.forms with bolt11_send := {} } }, [])
  | .bolt12_receive => fun s v =>
      ({ s with generated_offer := some v.offer,
                status_message := some (StatusMessage.success "Offer generated") }, [])
  | .bolt12_send => fun s v =>
      ({ s with last_payment_id := some v.payment_id,
                status_message :=
                  some (StatusMessage.success ("Payment sent! ID: " ++ v.payment_id)),
                forms := { s.forms with bolt12_send := {} } }, [])
  | .open_channel => fun s v =>
      fetch_channels
        { s with last_channel_id := some v.user_channel_id,
                 status_message :=
                   some (StatusMessage.success ("Channel opened! ID: " ++ v.user_channel_id)),
                 forms := { s.forms with open_channel := {} },
                 show_open_channel_dialog := false }
  | .close_channel => fun s _v =>
      fetch_channels
        { s with status_message := some (StatusMessage.success "Channel close initiated"),
                 forms := { s.forms with close_channel := {} },
                 show_close_channel_dialog := false }
  | .force_close_channel => fun s _v =>
      fetch_channels
        { s with status_message := some (StatusMessage.success "Force close initiated"),
                 forms := { s.forms with close_channel := {} },
                 show_close_channel_dialog := false }
  | .splice_in => fun s _v =>
      fetch_channels
        { s with status_message := some (StatusMessage.success "Splice-in initiated"),
                 forms := { s.forms with splice_in := {} },
                 show_splice_in_dialog := false }
  | .splice_out => fun s v =>
      fetch_channels
        { s with status_message :=
                   some (StatusMessage.success ("Splice-out initiated to " ++ v.address)),
                 forms := { s.forms with splice_out := {} },
                 show_splice_out_dialog := false }
  | .update_channel_config => fun s _v =>
      fetch_channels
        { s with status_message := some (StatusMessage.success "Channel config updated"),
                 forms := { s.forms with update_channel_config := {} },
                 show_update_config_dialog := false }
  | .connect_peer => fun s _v =>
      ({ s with status_message := some (StatusMessage.success "Peer connected successfully"),
                forms := { s.forms with connect_peer := {} },
                show_connect_peer_dialog := false }, [])

/-- One `poll_task!` invocation of `poll_tasks`, for the given key. -/
def drainStep (k : Key) : AppState × List Call × Bool → AppState × List Call × Bool :=
  poll_task (slotGet k) (slotSet k) (handlerOf k)

/-- `LdkServerApp::poll_tasks`: one `poll_task!` per slot, in declaration
order. -/
def poll_tasks (s : AppState) : AppState × List Call × Bool :=
  let a := drainStep .node_info (s, [], false)
  let a := drainStep .balances a
  let a := drainStep .channels a
  let a := drainStep .payments a
  let a := drainStep .onchain_receive a
  let a := drainStep .onchain_send a
  let a := drainStep .bolt11_receive a
  let a := drainStep .bolt11_send a
  let a := drainStep .bolt12_receive a
  let a := drainStep .bolt12_send a
  let a := drainStep .open_channel a
  let a := drainStep .close_channel a
  let a := drainStep .force_close_channel a
  let a := drainStep .splice_in a
  let a := drainStep .splice_out a
  let a := drainStep .update_channel_config a
  drainStep .connect_peer a

/-- The polling prefix of `App::update`: drain all slots, then — iff
`any_pending` — issue `ctx.request_repaint_after(Duration::from_millis(100))`.
The last component records whether that repaint-after request was issued. -/
def update_tick (s : AppState) : AppState × List Call × Bool × Bool :=
  let a := poll_tasks s
  (a.1, a.2.1, a.2.2, a.1.tasks.any_pending)

/-- `LdkServerApp::disconnect`. -/
def disconnect (s : AppState) : AppState :=
  { s with client := none,
           connection_status := ConnectionStatus.Disconnected,
           node_info := none,
           balances := none,
           channels := none,
           payments := none,
           status_message := some (StatusMessage.success "Disconnected") }

/-- The dispatcher substrate publishing outcome `r` into the outstanding
balances handle (`task.rs` lines 35–38 and 66–69: the spawned future's single
send/store).  No-op when no call is outstanding. -/
def completeBalances (s : AppState) (r : RustResult GetBalancesResponse) : AppState :=
  match s.tasks.balances with
  | none => s
  | some h => { s with tasks := { s.tasks with balances := some (h.complete r) } }

/-- Concrete state with an outstanding on-chain-send call. -/
def stOccOS : AppState :=
  { client := some ⟨"client"⟩,
    tasks := { onchain_send := some ⟨none⟩ } }

/-- Concrete disconnected state with an invalid on-chain-send form (empty
address, non-numeric amount). -/
def stDisc : AppState :=
  { forms := { onchain_send := { address := "", amount_sats := "abc" } } }

/-- Concrete state whose on-chain-send call failed with the message
"insufficient funds" (the specification's scenario). -/
def stErrOS : AppState :=
  { client := some ⟨"client"⟩,
    last_txid := some "earlier-txid",
    tasks := { onchain_send := some ⟨some (RustResult.err "insufficient funds")⟩ } }

/-- Concrete state with a failed bolt11-send call and an outstanding (still
pending) balances call. -/
def stErrB11 : AppState :=
  { client := some ⟨"client"⟩,
    tasks := { bolt11_send := some ⟨some (RustResult.err "boom")⟩,
               balances := some ⟨none⟩ } }

/-- Concrete connected state with cached data and an err-completed payments
call outstanding. -/
def stConn : AppState :=
  { client := some ⟨"client"⟩,
    node_info := some ⟨"cached"⟩,
    connection_status := ConnectionStatus.Connected,
    tasks := { payments := some ⟨some (RustResult.err "timeout")⟩ } }

/-- The open-channel success handler's state updates before its final
`fetch_channels` call (`poll_tasks`, open-channel arm). -/
def openChannelApplied (s : AppState) (v : OpenChannelResponse) : AppState :=
  { s with tasks := { s.tasks with open_channel := none },
           last_channel_id := some v.user_channel_id,
           status_message :=
             some (StatusMessage.success ("Channel opened! ID: " ++ v.user_channel_id)),
           forms := { s.forms with open_channel := {} },
           show_open_channel_dialog := false }

/-- Concrete connected state whose open-channel call just succeeded. -/
def stOpenOk : AppState :=
  { client := some ⟨"client"⟩,
    show_open_channel_dialog := true,
    forms := { open_channel := { node_pubkey := "02abc", address := "1.2.3.4:9735",
                                 channel_amount_sats := "100000" } },
    tasks := { open_channel := some ⟨some (RustResult.ok ⟨"chan42"⟩)⟩ } }

/-- Connected state whose open-channel call just succeeded. -/
def stReuse : AppState :=
  { client := some ⟨"client"⟩,
    tasks := { open_channel := some ⟨some (RustResult.ok ⟨"chan1"⟩)⟩ } }

/-- Connected state with a completed (successful) balances call. -/
def stBalDone : AppState :=
  { client := some ⟨"client"⟩,
    tasks := { balances := some ⟨some (RustResult.ok ⟨"bal"⟩)⟩ } }

/-- Connected state with nothing outstanding. -/
def stIdle : AppState :=
  { client := some ⟨"client"⟩ }


/-- A producer that never completes is observed as `none` on every poll
(native handle). -/
theorem runNative_polls_empty {T : Type} (b : Nat) :
    runNative (T := T) ⟨[]⟩ (List.replicate b HEvent.poll) = List.replicate b none := by
  induction b with
  | zero => rfl
  | succ n ih => simp [List.replicate_succ, runNative, NativeHandle.try_take, ih]

/-- A drained WASM cell is observed as `none` on every poll. -/
theorem runWasm_polls_empty {T : Type} (b : Nat) :
    runWasm (T := T) ⟨none⟩ (List.replicate b HEvent.poll) = List.replicate b none := by
  induction b with
  | zero => rfl
  | succ n ih => simp [List.replicate_succ, runWasm, WasmHandle.try_take, ih]

/-- After completion, the native handle yields `some r` on the first poll and
`none` on every later poll. -/
theorem runNative_after_complete {T : Type} (r : RustResult T) (b : Nat) :
    runNative ⟨[r]⟩ (List.replicate b HEvent.poll) =
      (match b with
       | 0 => []
       | Nat.succ b2 => some r :: List.replicate b2 none) := by
  cases b with
  | zero => rfl
  | succ b2 =>
      simp [List.replicate_succ, runNative, NativeHandle.try_take,
        runNative_polls_empty]

/-- After completion, the WASM handle yields `some r` on the first poll and
`none` on every later poll. -/
theorem runWasm_after_complete {T : Type} (r : RustResult T) (b : Nat) :
    runWasm ⟨some r⟩ (List.replicate b HEvent.poll) =
      (match b with
       | 0 => []
       | Nat.succ b2 => some r :: List.replicate b2 none) := by
  cases b with
  | zero => rfl
  | succ b2 =>
      simp [List.replicate_succ, runWasm, WasmHandle.try_take, runWasm_polls_empty]

/-- Polls before completion all yield `none` (native), and the run continues
from the still-empty channel. -/
theorem runNative_oneShot {T : Type} (a : Nat) (r : RustResult T) (b : Nat) :
    runNative ⟨[]⟩ (oneShotTrace a r b) = oneShotOutputs a r b := by
  induction a with
  | zero =>
      simp only [oneShotTrace, oneShotOutputs, List.replicate_zero, List.nil_append,
        runNative, NativeHandle.complete]
      exact runNative_after_complete r b
  | succ n ih =>
      simp only [oneShotTrace, oneShotOutputs, List.replicate_succ, List.cons_append,
        runNative, NativeHandle.try_take] at ih ⊢
      exact congrArg (none :: ·) ih

/-- Polls before completion all yield `none` (wasm), and the run continues
from the still-empty cell. -/
theorem runWasm_oneShot {T : Type} (a : Nat) (r : RustResult T) (b : Nat) :
    runWasm ⟨none⟩ (oneShotTrace a r b) = oneShotOutputs a r b := by
  induction a with
  | zero =>
      simp only [oneShotTrace, oneShotOutputs, List.replicate_zero, List.nil_append,
        runWasm, WasmHandle.complete]
      exact runWasm_after_complete r b
  | succ n ih =>
      simp only [oneShotTrace, oneShotOutputs, List.replicate_succ, List.cons_append,
        runWasm, WasmHandle.try_take] at ih ⊢
      exact congrArg (none :: ·) ih

/-- A one-shot trace `oneShotOutputs` never contains two `some` results. -/
theorem oneShotOutputs_at_most_one_some {T : Type} (a : Nat) (r : RustResult T) (b : Nat) :
    (oneShotOutputs a r b).countP (fun o => o.isSome) ≤ 1 := by
  cases b with
  | zero =>
      simp [oneShotOutputs, List.countP_append, List.countP_replicate, Option.isSome]
  | succ b2 =>
      simp [oneShotOutputs, List.countP_append, List.countP_cons, List.countP_replicate,
        Option.isSome]

theorem trigger_eq (k : Key) :
    trigger k = runTrigger (slotGet k) (slotSet k) (validateOf k) (mkCallOf k) := by
  cases k <;> rfl

/-! ## Bridging lemmas between the per-key predicates and the tables -/

theorem occupied_eq (k : Key) (s : AppState) : occupied s k = (slotGet k s).isSome := by
  cases k <;> rfl

theorem slotErr_eq (k : Key) (s : AppState) (m : String) :
    slotErr s k m ↔ slotGet k s = some ⟨some (RustResult.err m)⟩ := by
  cases k <;> exact Iff.rfl

theorem slotDone_eq (k : Key) (s : AppState) :
    slotDone s k ↔ ∃ r, slotGet k s = some ⟨some r⟩ := by
  cases k <;> exact Iff.rfl

theorem clearSlot_eq (k : Key) (s : AppState) : clearSlot s k = slotSet k s none := by
  cases k <;> rfl

theorem slotGet_slotSet (k : Key) (s : AppState) (v : Option (ChannelTaskHandle (RespType k))) :
    slotGet k (slotSet k s v) = v := by
  cases k <;> rfl

theorem slotGet_status (k : Key) (s : AppState) (m : Option StatusMessage) :
    slotGet k { s with status_message := m } = slotGet k s := by
  cases k <;> rfl

theorem validateOf_status (k : Key) (s : AppState) (m : Option StatusMessage) :
    validateOf k { s with status_message := m } = validateOf k s := by
  cases k <;> rfl

/-! ## Basic facts about `runTrigger` -/

theorem runTrigger_occupied {T : Type}
    (get : AppState → Option (ChannelTaskHandle T))
    (set : AppState → Option (ChannelTaskHandle T) → AppState)
    (validate : AppState → Option String) (mkCall : AppState → Call)
    (s : AppState) (h : (get s).isSome = true) :
    runTrigger get set validate mkCall s = (s, []) := by
  unfold runTrigger
  rw [if_pos h]

theorem runTrigger_no_client {T : Type}
    (get : AppState → Option (ChannelTaskHandle T))
    (set : AppState → Option (ChannelTaskHandle T) → AppState)
    (validate : AppState → Option String) (mkCall : AppState → Call)
    (s : AppState) (h : s.client = none) :
    runTrigger get set validate mkCall s = (s, []) := by
  unfold runTrigger
  by_cases h1 : (get s).isSome = true
  · rw [if_pos h1]
  · rw [if_neg h1, h]

theorem runTrigger_validation_err {T : Type}
    (get : AppState → Option (ChannelTaskHandle T))
    (set : AppState → Option (ChannelTaskHandle T) → AppState)
    (validate : AppState → Option String) (mkCall : AppState → Call)
    (s : AppState) (c : LdkServerClient) (msg : String)
    (h1 : (get s).isSome = false) (hc : s.client = some c) (hv : validate s = some msg) :
    runTrigger get set validate mkCall s =
      ({ s with status_message := some (StatusMessage.error msg) }, []) := by
  unfold runTrigger
  rw [if_neg (by rw [h1]; exact Bool.false_ne_true), hc, hv]

theorem runTrigger_spawns {T : Type}
    (get : AppState → Option (ChannelTaskHandle T))
    (set : AppState → Option (ChannelTaskHandle T) → AppState)
    (validate : AppState → Option String) (mkCall : AppState → Call)
    (s : AppState) (c : LdkServerClient)
    (h1 : get s = none) (hc : s.client = some c) (hv : validate s = none) :
    runTrigger get set validate mkCall s =
      (set s (some ChannelTaskHandle.fresh), [mkCall s]) := by
  unfold runTrigger
  rw [h1, hc, hv]
  rfl

/-- A single trigger spawns at most one underlying call. -/
theorem runTrigger_calls_length_le_one {T : Type}
    (get : AppState → Option (ChannelTaskHandle T))
    (set : AppState → Option (ChannelTaskHandle T) → AppState)
    (validate : AppState → Option String) (mkCall : AppState → Call)
    (s : AppState) :
    (runTrigger get set validate mkCall s).2.length ≤ 1 := by
  unfold runTrigger
  split
  · simp
  · split
    · simp
    · split <;> simp

/-- Whatever the first trigger did (no-op, validation error, or spawn), an
immediately repeated trigger spawns nothing. -/
theorem runTrigger_second_calls_nil {T : Type}
    (get : AppState → Option (ChannelTaskHandle T))
    (set : AppState → Option (ChannelTaskHandle T) → AppState)
    (validate : AppState → Option String) (mkCall : AppState → Call)
    (hgs : ∀ s v, get (set s v) = v)
    (hst : ∀ s m, get { s with status_message := m } = get s)
    (hvs : ∀ s m, validate { s with status_message := m } = validate s)
    (s : AppState) :
    (runTrigger get set validate mkCall (runTrigger get set validate mkCall s).1).2 = [] := by
  by_cases h1 : (get s).isSome = true
  · rw [runTrigger_occupied get set validate mkCall s h1]
    show (runTrigger get set validate mkCall s).2 = []
    rw [runTrigger_occupied get set validate mkCall s h1]
  · have h1f : (get s).isSome = false := by
      revert h1; cases (get s).isSome <;> simp
    cases hc : s.client with
    | none =>
        rw [runTrigger_no_client get set validate mkCall s hc]
        show (runTrigger get set validate mkCall s).2 = []
        rw [runTrigger_no_client get set validate mkCall s hc]
    | some c =>
        cases hv : validate s with
        | some msg =>
            rw [runTrigger_validation_err get set validate mkCall s c msg h1f hc hv]
            show (runTrigger get set validate mkCall
              ({ s with status_message := some (StatusMessage.error msg) })).2 = []
            rw [runTrigger_validation_err get set validate mkCall
              ({ s with status_message := some (StatusMessage.error msg) }) c msg
              (by rw [hst]; exact h1f) hc (by rw [hvs]; exact hv)]
        | none =>
            have hn : get s = none := by
              cases hgx : get s with
              | none => rfl
              | some t => rw [hgx] at h1f; simp at h1f
            rw [runTrigger_spawns get set validate mkCall s c hn hc hv]
            show (runTrigger get set validate mkCall
              (set s (some ChannelTaskHandle.fresh))).2 = []
            rw [runTrigger_occupied get set validate mkCall
              (set s (some ChannelTaskHandle.fresh)) (by simp [hgs])]

/-! ## Claim C1: single-flight per operation key -/

/-- C1.  For every operation key, if the key's registry slot is occupied, the
trigger function is a no-op: it spawns no call and returns the application
state unchanged (no status message set, no form validation run).  Moreover a
single trigger spawns at most one call, and the second of two back-to-back
triggers (no intervening drain) spawns none, so triggering twice spawns
exactly the calls of the first trigger: one underlying call when the first
spawned. -/
theorem claim1_trigger_single_flight (k : Key) (s : AppState)
    (h : occupied s k = true) :
    trigger k s = (s, []) ∧
    ∀ s0 : AppState,
      (trigger k s0).2.length ≤ 1 ∧ (trigger k (trigger k s0).1).2 = [] := by
  rw [trigger_eq k]
  rw [occupied_eq] at h
  exact ⟨runTrigger_occupied _ _ _ _ s h,
    fun s0 =>
      ⟨runTrigger_calls_length_le_one _ _ _ _ s0,
       runTrigger_second_calls_nil _ _ _ _ (slotGet_slotSet k) (slotGet_status k)
         (validateOf_status k) s0⟩⟩

/-- Witness for C1 at the on-chain-send key. -/
theorem claim1_witness :
    occupied stOccOS .onchain_send = true ∧
    trigger .onchain_send stOccOS = (stOccOS, []) :=
  ⟨rfl, (claim1_trigger_single_flight .onchain_send stOccOS rfl).1⟩

/-! ## Claim C10: triggering while disconnected is a silent no-op -/

/-- C10.  For every operation key, if the slot is empty but no client is
connected, the trigger returns the state unchanged and spawns nothing: no
status message is set and no form validation runs, whatever the form
contents. -/
theorem claim10_trigger_disconnected_noop (k : Key) (s : AppState)
    (h1 : occupied s k = false) (h2 : s.client = none) :
    trigger k s = (s, []) := by
  rw [trigger_eq k]
  exact runTrigger_no_client _ _ _ _ s h2

/-- Witness for C10: even with an invalid form, the disconnected trigger
changes nothing. -/
theorem claim10_witness :
    occupied stDisc .onchain_send = false ∧ stDisc.client = none ∧
    trigger .onchain_send stDisc = (stDisc, []) :=
  ⟨rfl, rfl, claim10_trigger_disconnected_noop .onchain_send stDisc rfl rfl⟩

/-! ## Basic facts about `poll_task` and `drainStep` -/

theorem poll_task_empty {T : Type}
    (get : AppState → Option (ChannelTaskHandle T))
    (set : AppState → Option (ChannelTaskHandle T) → AppState)
    (handler : AppState → T → AppState × List Call)
    (acc : AppState × List Call × Bool) (h : get acc.1 = none) :
    poll_task get set handler acc = acc := by
  unfold poll_task
  rw [h]

theorem poll_task_pending {T : Type}
    (get : AppState → Option (ChannelTaskHandle T))
    (set : AppState → Option (ChannelTaskHandle T) → AppState)
    (handler : AppState → T → AppState × List Call)
    (acc : AppState × List Call × Bool) (h : get acc.1 = some ⟨none⟩) :
    poll_task get set handler acc = (acc.1, acc.2.1, true) := by
  unfold poll_task
  rw [h]
  rfl

theorem poll_task_err {T : Type}
    (get : AppState → Option (ChannelTaskHandle T))
    (set : AppState → Option (ChannelTaskHandle T) → AppState)
    (handler : AppState → T → AppState × List Call)
    (acc : AppState × List Call × Bool) (m : String)
    (h : get acc.1 = some ⟨some (RustResult.err m)⟩) :
    poll_task get set handler acc =
      ({ set acc.1 none with status_message := some (StatusMessage.error m) },
        acc.2.1, acc.2.2) := by
  unfold poll_task
  rw [h]
  rfl

theorem poll_task_ok {T : Type}
    (get : AppState → Option (ChannelTaskHandle T))
    (set : AppState → Option (ChannelTaskHandle T) → AppState)
    (handler : AppState → T → AppState × List Call)
    (acc : AppState × List Call × Bool) (v : T)
    (h : get acc.1 = some ⟨some (RustResult.ok v)⟩) :
    poll_task get set handler acc =
      ((handler (set acc.1 none) v).1,
        acc.2.1 ++ (handler (set acc.1 none) v).2, acc.2.2) := by
  unfold poll_task
  rw [h]
  rfl

/-- Draining an error-completed slot: the slot is cleared and the status
message is overwritten with the error; nothing else happens. -/
theorem drainStep_err (k : Key) (s : AppState) (m : String) (cs : List Call) (rp : Bool)
    (h : slotErr s k m) :
    drainStep k (s, cs, rp) =
      ({ clearSlot s k with status_message := some (StatusMessage.error m) }, cs, rp) := by
  rw [clearSlot_eq]
  exact poll_task_err (slotGet k) (slotSet k) (handlerOf k) (s, cs, rp) m
    ((slotErr_eq k s m).mp h)

/-! ## Claim C4: error drain contract -/

/-- C4.  For every operation key, when the drain step observes a completed
error outcome, the resulting state is exactly the input state with that key's
slot cleared and the shared status surface overwritten with the error message
(error flag set): no success handler runs, no call (hence no retry) is
spawned, and the call trace is unchanged. -/
theorem claim4_drain_err_contract (k : Key) (s : AppState) (m : String)
    (cs : List Call) (rp : Bool) (h : slotErr s k m) :
    drainStep k (s, cs, rp) =
      ({ clearSlot s k with status_message := some (StatusMessage.error m) }, cs, rp) ∧
    occupied (drainStep k (s, cs, rp)).1 k = false ∧
    (drainStep k (s, cs, rp)).1.status_message = some { text := m, is_error := true } ∧
    (drainStep k (s, cs, rp)).2.1 = cs := by
  have e := drainStep_err k s m cs rp h
  refine ⟨e, ?_, ?_, ?_⟩
  · rw [e, occupied_eq, slotGet_status, clearSlot_eq, slotGet_slotSet]
    rfl
  · rw [e]
    rfl
  · rw [e]

/-- Witness for C4: draining the failed on-chain send clears the slot and
puts exactly the failure message in the shared status surface. -/
theorem claim4_witness :
    slotErr stErrOS .onchain_send "insufficient funds" ∧
    occupied (drainStep .onchain_send (stErrOS, [], false)).1 .onchain_send = false ∧
    (drainStep .onchain_send (stErrOS, [], false)).1.status_message =
      some { text := "insufficient funds", is_error := true } := by
  have h := claim4_drain_err_contract .onchain_send stErrOS "insufficient funds" [] false rfl
  exact ⟨rfl, h.2.1, h.2.2.1⟩

/-! ## Claim C5: error isolation (frame property) -/

/-- C5.  Handling a failure on key `k` changes only that key's slot (cleared)
and the shared status message: every other key's slot is unchanged, the whole
state differs from the input only in `tasks` and `status_message`, no call is
recorded, the repaint flag is untouched, and the drain pass is the sequential
composition of the per-key steps, so the steps after `k` still run. -/
theorem claim5_drain_err_isolation (k : Key) (s : AppState) (m : String)
    (cs : List Call) (rp : Bool) (pre post : List Key)
    (h : slotErr s k m) (hsplit : Key.all = pre ++ k :: post) :
    (∀ k2, k2 ≠ k → slotEq (drainStep k (s, cs, rp)).1 s k2) ∧
    (drainStep k (s, cs, rp)).1 =
      { s with tasks := (drainStep k (s, cs, rp)).1.tasks,
               status_message := some (StatusMessage.error m) } ∧
    (drainStep k (s, cs, rp)).2.1 = cs ∧
    (drainStep k (s, cs, rp)).2.2 = rp ∧
    ∀ s0 : AppState,
      poll_tasks s0 =
        List.foldl (fun a kk => drainStep kk a)
          (drainStep k (List.foldl (fun a kk => drainStep kk a) (s0, [], false) pre)) post := by
  have e := drainStep_err k s m cs rp h
  refine ⟨?_, ?_, ?_, ?_, ?_⟩
  · intro k2 hne
    rw [e]
    cases k <;> cases k2 <;> first | exact absurd rfl hne | exact rfl
  · rw [e]
    cases k <;> rfl
  · rw [e]
  · rw [e]
  · intro s0
    have hfold : poll_tasks s0 =
        List.foldl (fun a kk => drainStep kk a) (s0, [], false) Key.all := rfl
    rw [hfold, hsplit, List.foldl_append]
    rfl

/-- Witness for C5: the failing bolt11-send drain leaves the outstanding
balances slot untouched, and the pass decomposes around the bolt11-send
step. -/
theorem claim5_witness :
    slotEq (drainStep .bolt11_send (stErrB11, [], false)).1 stErrB11 .balances ∧
    poll_tasks stErrB11 =
      List.foldl (fun a kk => drainStep kk a)
        (drainStep .bolt11_send
          (List.foldl (fun a kk => drainStep kk a) (stErrB11, [], false)
            [.node_info, .balances, .channels, .payments, .onchain_receive, .onchain_send,
             .bolt11_receive]))
        [.bolt12_receive, .bolt12_send, .open_channel, .close_channel, .force_close_channel,
         .splice_in, .splice_out, .update_channel_config, .connect_peer] := by
  have h := claim5_drain_err_isolation .bolt11_send stErrB11 "boom" [] false
    [.node_info, .balances, .channels, .payments, .onchain_receive, .onchain_send,
     .bolt11_receive]
    [.bolt12_receive, .bolt12_send, .open_channel, .close_channel, .force_close_channel,
     .splice_in, .splice_out, .update_channel_config, .connect_peer]
    rfl rfl
  exact ⟨h.1 .balances (by decide), h.2.2.2.2 stErrB11⟩

/-! ## Claim C3: pending-signal correctness -/

/-- Every key is listed in `Key.all`. -/
theorem key_mem_all (k : Key) : k ∈ Key.all := by
  cases k <;> simp [Key.all]

/-- The seventeen-fold disjunction of `any_pending` is the disjunction over
the key catalog. -/
theorem any_pending_eq_any (t : AsyncTasks) :
    t.any_pending = (Key.all.any fun k => t.slotSome k) := by
  simp [AsyncTasks.any_pending, Key.all, AsyncTasks.slotSome, Bool.or_assoc]

/-- `any_pending` is true exactly when some registry slot is occupied. -/
theorem any_pending_iff (t : AsyncTasks) :
    t.any_pending = true ↔ ∃ k : Key, t.slotSome k = true := by
  rw [any_pending_eq_any, List.any_eq_true]
  constructor
  · rintro ⟨k, _, hk⟩
    exact ⟨k, hk⟩
  · rintro ⟨k, hk⟩
    exact ⟨k, key_mem_all k, hk⟩

/-- C3.  After the full drain pass of an update tick, the repaint-after
request (the "schedule another poll soon" signal, guarded by `any_pending`)
is issued iff at least one of the seventeen registry slots is still occupied;
and `any_pending` itself is true exactly when some slot field of `AsyncTasks`
is `Some`. -/
theorem claim3_pending_signal (s : AppState) :
    ((update_tick s).2.2.2 = true ↔ ∃ k : Key, occupied (update_tick s).1 k = true) ∧
    ∀ t : AsyncTasks, t.any_pending = true ↔ ∃ k : Key, t.slotSome k = true := by
  constructor
  · show ((poll_tasks s).1.tasks.any_pending = true ↔ _)
    simp only [occupied]
    exact any_pending_iff _
  · exact any_pending_iff

/-! ## Claim C9: disconnect does not cancel or clear in-flight work -/

/-- C9.  `disconnect` sets the client to `None`, sets a success status, and
clears the four cached responses, but leaves the entire task registry — all
seventeen slots — unchanged; an error-completed handle outstanding at
disconnect time is still drained on a later tick and its outcome applied to
the state (slot cleared, status overwritten). -/
theorem claim9_disconnect_frame (s : AppState) (k : Key) (m : String)
    (h : slotErr s k m) :
    (disconnect s).tasks = s.tasks ∧
    (disconnect s).client = none ∧
    (disconnect s).status_message = some (StatusMessage.success "Disconnected") ∧
    (disconnect s).node_info = none ∧
    (disconnect s).balances = none ∧
    (disconnect s).channels = none ∧
    (disconnect s).payments = none ∧
    slotErr (disconnect s) k m ∧
    drainStep k (disconnect s, [], false) =
      ({ clearSlot (disconnect s) k with
           status_message := some (StatusMessage.error m) }, [], false) := by
  have h2 : slotErr (disconnect s) k m := by cases k <;> exact h
  exact ⟨rfl, rfl, rfl, rfl, rfl, rfl, rfl, h2, drainStep_err k _ m [] false h2⟩

/-- Witness for C9: the outstanding handle survives disconnect and its
outcome is still applied by a later drain. -/
theorem claim9_witness :
    (disconnect stConn).tasks = stConn.tasks ∧
    occupied (disconnect stConn) .payments = true ∧
    (drainStep .payments (disconnect stConn, [], false)).1.status_message =
      some { text := "timeout", is_error := true } := by
  have h := claim9_disconnect_frame stConn .payments "timeout" rfl
  refine ⟨h.1, rfl, ?_⟩
  rw [h.2.2.2.2.2.2.2.2]
  rfl

/-! ## Claim C2: exactly-once delivery through a handle -/

/-- When the handle is polled at least once after completion, exactly one
`some` appears among the poll results. -/
theorem oneShotOutputs_one_some {T : Type} (a : Nat) (r : RustResult T) (b : Nat) :
    (oneShotOutputs a r (b + 1)).countP (fun o => o.isSome) = 1 := by
  simp [oneShotOutputs, List.countP_append, List.countP_cons, List.countP_replicate,
    Option.isSome]

/-- C2.  For a spawned call completing with outcome `r` after `a` polls and
polled `b` more times afterwards, both the native channel handle and the WASM
cell handle yield: `none` for each of the `a` polls before completion, then —
if polled at all afterwards — exactly one `some r` followed by only `none`;
the output sequence never contains two `some` results, and contains exactly
one when the handle is polled after completion. -/
theorem claim2_try_take_exactly_once {T : Type} (a : Nat) (r : RustResult T) (b : Nat) :
    runNative ⟨[]⟩ (oneShotTrace a r b) = oneShotOutputs a r b ∧
    runWasm ⟨none⟩ (oneShotTrace a r b) = oneShotOutputs a r b ∧
    (oneShotOutputs a r b).countP (fun o => o.isSome) ≤ 1 ∧
    (oneShotOutputs a r (b + 1)).countP (fun o => o.isSome) = 1 :=
  ⟨runNative_oneShot a r b, runWasm_oneShot a r b,
   oneShotOutputs_at_most_one_some a r b, oneShotOutputs_one_some a r b⟩

/-! ## Claim C8: substrate equivalence of the two handle implementations -/

/-- Bisimulation between the mpsc-queue handle and the completion-cell
handle: starting from a queue holding exactly the not-yet-taken message of
the cell, and with at most one completion still to come, the two handles
produce identical poll-output sequences. -/
theorem runNative_eq_runWasm_rel {T : Type} (evs : List (HEvent T)) :
    ∀ q : Option (RustResult T),
      evs.countP (fun e => e.isComplete) + (if q.isSome then 1 else 0) ≤ 1 →
      runNative ⟨q.toList⟩ evs = runWasm ⟨q⟩ evs := by
  induction evs with
  | nil => intro q _; rfl
  | cons e evs ih =>
      intro q hq
      cases e with
      | poll =>
          have hcount : (HEvent.poll :: evs).countP (fun e => e.isComplete) =
              evs.countP (fun e => e.isComplete) := by
            simp [List.countP_cons, HEvent.isComplete]
          rw [hcount] at hq
          cases q with
          | none =>
              show none :: runNative ⟨[]⟩ evs = none :: runWasm ⟨none⟩ evs
              exact congrArg _ (ih none hq)
          | some r =>
              show some r :: runNative ⟨[]⟩ evs = some r :: runWasm ⟨none⟩ evs
              exact congrArg _ (ih none (Nat.le_of_succ_le hq))
      | complete r =>
          have hcount : (HEvent.complete r :: evs).countP (fun e => e.isComplete) =
              evs.countP (fun e => e.isComplete) + 1 := by
            simp [List.countP_cons, HEvent.isComplete]
          rw [hcount] at hq
          cases q with
          | none =>
              show runNative ⟨[] ++ [r]⟩ evs = runWasm ⟨some r⟩ evs
              exact ih (some r) hq
          | some r0 =>
              exfalso
              rw [show ((if (some r0).isSome = true then 1 else 0) : Nat) = 1 from rfl] at hq
              omega

/-- C8.  For any event interleaving in which the spawned computation
completes at most once (which the dispatcher guarantees: the future sends or
stores its outcome exactly once), the native channel-based handle and the
WASM shared-cell handle return the same sequence of `try_take` results, so
everything above the dispatcher is substrate-agnostic. -/
theorem claim8_handle_substrate_equiv {T : Type} (evs : List (HEvent T))
    (h : evs.countP (fun e => e.isComplete) ≤ 1) :
    runNative ⟨[]⟩ evs = runWasm ⟨none⟩ evs :=
  runNative_eq_runWasm_rel evs none (by simpa using h)

/-- Witness for C8 on a concrete one-shot trace. -/
theorem claim8_witness :
    ([HEvent.poll, HEvent.complete (RustResult.ok (37 : Nat)), HEvent.poll,
        HEvent.poll].countP (fun e => e.isComplete)) ≤ 1 ∧
    runNative ⟨[]⟩
        [HEvent.poll, HEvent.complete (RustResult.ok (37 : Nat)), HEvent.poll, HEvent.poll] =
      runWasm ⟨none⟩
        [HEvent.poll, HEvent.complete (RustResult.ok 37), HEvent.poll, HEvent.poll] :=
  ⟨by decide, claim8_handle_substrate_equiv _ (by decide)⟩

/-! ## Claim C7: open-channel success side effects -/

theorem drainStep_ok (k : Key) (s : AppState) (v : RespType k) (cs : List Call) (rp : Bool)
    (h : slotGet k s = some ⟨some (RustResult.ok v)⟩) :
    drainStep k (s, cs, rp) =
      ((handlerOf k (slotSet k s none) v).1,
        cs ++ (handlerOf k (slotSet k s none) v).2, rp) :=
  poll_task_ok (slotGet k) (slotSet k) (handlerOf k) (s, cs, rp) v h

theorem drainStep_ok_state (k : Key) (s : AppState) (v : RespType k) (cs : List Call)
    (rp : Bool) (h : slotGet k s = some ⟨some (RustResult.ok v)⟩) :
    (drainStep k (s, cs, rp)).1 = (handlerOf k (slotSet k s none) v).1 := by
  rw [drainStep_ok k s v cs rp h]

/-- `fetch_channels` only ever touches the channels slot: every other
field of the state it is called on is passed through. -/
theorem fetch_channels_frame (s : AppState) :
    (fetch_channels s).1.client = s.client ∧
    (fetch_channels s).1.status_message = s.status_message ∧
    (fetch_channels s).1.forms = s.forms ∧
    (fetch_channels s).1.last_channel_id = s.last_channel_id ∧
    (fetch_channels s).1.show_open_channel_dialog = s.show_open_channel_dialog := by
  unfold fetch_channels runTrigger
  split
  · exact ⟨rfl, rfl, rfl, rfl, rfl⟩
  · split
    · exact ⟨rfl, rfl, rfl, rfl, rfl⟩
    · exact ⟨rfl, rfl, rfl, rfl, rfl⟩

/-- `fetch_channels` leaves every slot other than the channels slot
unchanged. -/
theorem fetch_channels_slots (s : AppState) (k2 : Key) (h : k2 ≠ Key.channels) :
    slotGet k2 (fetch_channels s).1 = slotGet k2 s := by
  unfold fetch_channels runTrigger
  split
  · rfl
  · split
    · rfl
    · cases k2 <;> first | exact absurd rfl h | rfl

/-- C7.  When the drain step observes a successful open-channel outcome, the
result is exactly: slot cleared, then the success handler applied once
(channel id recorded, success status set, form reset, dialog closed), then
the `fetch_channels` trigger issued on that state — all within the same
step, with the repaint flag untouched. -/
theorem claim7_open_channel_success_drain (s : AppState) (v : OpenChannelResponse)
    (cs : List Call) (rp : Bool)
    (h : s.tasks.open_channel = some ⟨some (RustResult.ok v)⟩) :
    drainStep .open_channel (s, cs, rp) =
      ((fetch_channels (openChannelApplied s v)).1,
        cs ++ (fetch_channels (openChannelApplied s v)).2, rp) ∧
    occupied (drainStep .open_channel (s, cs, rp)).1 .open_channel = false ∧
    (drainStep .open_channel (s, cs, rp)).1.last_channel_id = some v.user_channel_id ∧
    (drainStep .open_channel (s, cs, rp)).1.status_message =
      some { text := "Channel opened! ID: " ++ v.user_channel_id, is_error := false } ∧
    (drainStep .open_channel (s, cs, rp)).1.forms.open_channel = {} ∧
    (drainStep .open_channel (s, cs, rp)).1.show_open_channel_dialog = false := by
  have e : drainStep .open_channel (s, cs, rp) =
      ((fetch_channels (openChannelApplied s v)).1,
        cs ++ (fetch_channels (openChannelApplied s v)).2, rp) :=
    drainStep_ok .open_channel s v cs rp h
  have hf := fetch_channels_frame (openChannelApplied s v)
  refine ⟨e, ?_, ?_, ?_, ?_, ?_⟩
  · rw [e]
    show ((fetch_channels (openChannelApplied s v)).1.tasks.open_channel).isSome = false
    rw [show (fetch_channels (openChannelApplied s v)).1.tasks.open_channel =
          slotGet .open_channel (fetch_channels (openChannelApplied s v)).1 from rfl,
        fetch_channels_slots (openChannelApplied s v) .open_channel (by decide)]
    rfl
  · rw [e]
    show (fetch_channels (openChannelApplied s v)).1.last_channel_id = some v.user_channel_id
    rw [hf.2.2.2.1]
    rfl
  · rw [e]
    show (fetch_channels (openChannelApplied s v)).1.status_message =
      some { text := "Channel opened! ID: " ++ v.user_channel_id, is_error := false }
    rw [hf.2.1]
    rfl
  · rw [e]
    show (fetch_channels (openChannelApplied s v)).1.forms.open_channel = {}
    rw [hf.2.2.1]
    rfl
  · rw [e]
    show (fetch_channels (openChannelApplied s v)).1.show_open_channel_dialog = false
    rw [hf.2.2.2.2]
    rfl

/-- Witness for C7: draining the successful open-channel call records the
channel id, closes the dialog, and (dependently) occupies the channels
slot via the issued `fetch_channels` trigger. -/
theorem claim7_witness :
    (drainStep .open_channel (stOpenOk, [], false)).1.last_channel_id = some "chan42" ∧
    (drainStep .open_channel (stOpenOk, [], false)).1.show_open_channel_dialog = false ∧
    occupied (drainStep .open_channel (stOpenOk, [], false)).1 .channels = true := by
  have h := claim7_open_channel_success_drain stOpenOk ⟨"chan42"⟩ [] false rfl
  exact ⟨h.2.2.1, h.2.2.2.2.2, rfl⟩

/-! ## Claim C6: slot reuse -/

/-- On an empty slot, with a connected client and passing validation, a
trigger spawns exactly one call and re-occupies the slot. -/
theorem trigger_spawn_chars (k : Key) (s2 : AppState)
    (hocc : occupied s2 k = false) (hcl : s2.client.isSome = true)
    (hval : validateOf k s2 = none) :
    (trigger k s2).2.length = 1 ∧ occupied (trigger k s2).1 k = true := by
  obtain ⟨c, hc⟩ := Option.isSome_iff_exists.mp hcl
  have hget : slotGet k s2 = none := by
    rw [occupied_eq] at hocc
    cases hgx : slotGet k s2 with
    | none => rfl
    | some t => rw [hgx] at hocc; simp at hocc
  rw [trigger_eq k,
    runTrigger_spawns (slotGet k) (slotSet k) (validateOf k) (mkCallOf k) s2 c hget hc hval]
  refine ⟨rfl, ?_⟩
  rw [occupied_eq]
  show (slotGet k (slotSet k s2 (some ChannelTaskHandle.fresh))).isSome = true
  rw [slotGet_slotSet]
  rfl

/-- C6 counterexample.  After the drain pass clears the open-channel slot, a
new open-channel trigger with a connected client does NOT spawn a fresh call:
the success handler reset the form, so validation fails ("Invalid channel
amount"), no call is spawned, and the slot stays empty — refuting the claim
as stated for the open-channel key. -/
theorem claim6_counterexample :
    occupied (poll_tasks stReuse).1 .open_channel = false ∧
    ((poll_tasks stReuse).1.client).isSome = true ∧
    (trigger .open_channel (poll_tasks stReuse).1).2 = [] ∧
    occupied (trigger .open_channel (poll_tasks stReuse).1).1 .open_channel = false ∧
    (trigger .open_channel (poll_tasks stReuse).1).1.status_message =
      some { text := "Invalid channel amount", is_error := true } := by
  decide

/-- C6 (amended).  After the drain step for a key observes a completed
outcome, the slot is empty; a trigger on any state whose slot for that key is
empty, whose client is connected, and whose form validation for that key
passes (vacuously so for the five parameterless fetch/generate keys) spawns
exactly one fresh call and re-occupies the slot; concretely, two
fetch-balances triggers separated by a completed drain spawn one call each —
exactly two in total. -/
theorem claim6_slot_reuse_amended (k : Key) (s : AppState) (cs : List Call) (rp : Bool)
    (hdone : slotDone s k) :
    occupied (drainStep k (s, cs, rp)).1 k = false ∧
    (∀ s2 : AppState, occupied s2 k = false → s2.client.isSome = true →
        validateOf k s2 = none →
        (trigger k s2).2.length = 1 ∧ occupied (trigger k s2).1 k = true) ∧
    (∀ (s0 : AppState) (r : RustResult GetBalancesResponse),
        s0.client.isSome = true → s0.tasks.balances = none →
        (fetch_balances s0).2.length = 1 ∧
        occupied (drainStep .balances
            (completeBalances (fetch_balances s0).1 r, [], false)).1 .balances = false ∧
        (fetch_balances (drainStep .balances
            (completeBalances (fetch_balances s0).1 r, [], false)).1).2.length = 1) := by
  refine ⟨?_, fun s2 a b c => trigger_spawn_chars k s2 a b c, ?_⟩
  · obtain ⟨r, hr⟩ := (slotDone_eq k s).mp hdone
    cases r with
    | err m =>
        rw [drainStep_err k s m cs rp ((slotErr_eq k s m).mpr hr), occupied_eq,
          slotGet_status, clearSlot_eq, slotGet_slotSet]
        rfl
    | ok v =>
        rw [occupied_eq, drainStep_ok_state k s v cs rp hr]
        cases k <;>
          first
            | rfl
            | (simp only [handlerOf]
               rw [fetch_channels_slots _ _ (by decide)]
               rfl)
  · intro s0 r hcl hbal
    obtain ⟨c, hc⟩ := Option.isSome_iff_exists.mp hcl
    have e1 : fetch_balances s0 =
        (slotSet .balances s0 (some ChannelTaskHandle.fresh), [mkCallOf .balances s0]) :=
      runTrigger_spawns (slotGet .balances) (slotSet .balances) (validateOf .balances)
        (mkCallOf .balances) s0 c hbal hc rfl
    have e2 : completeBalances (fetch_balances s0).1 r =
        slotSet .balances s0 (some ⟨some r⟩) := by
      rw [e1]
      rfl
    refine ⟨?_, ?_, ?_⟩
    · rw [e1]
      rfl
    · rw [e2]
      cases r <;> rfl
    · rw [e2]
      cases r with
      | ok v =>
          refine (trigger_spawn_chars .balances _ ?_ ?_ ?_).1
          · rfl
          · exact hcl
          · rfl
      | err m =>
          refine (trigger_spawn_chars .balances _ ?_ ?_ ?_).1
          · rfl
          · exact hcl
          · rfl

/-- Witness for C6 (amended) at the balances key. -/
theorem claim6_witness :
    occupied (drainStep .balances (stBalDone, [], false)).1 .balances = false ∧
    (trigger .balances stIdle).2.length = 1 ∧
    occupied (trigger .balances stIdle).1 .balances = true := by
  have h := claim6_slot_reuse_amended .balances stBalDone [] false
    ⟨RustResult.ok ⟨"bal"⟩, rfl⟩
  exact ⟨h.1, (h.2.1 stIdle rfl rfl rfl).1, (h.2.1 stIdle rfl rfl rfl).2⟩
